import Mathlib

/-!
Shallow embedding of the settle-down receipt screens.

The definitions below are translated from the repository sources:
* `src/app/receipt-details.tsx` (the compact-UI variant, lines 1-1517):
  the editable item list, the numeric text-field parsing, the subtotal /
  total computation, the group / payer / assignment state, the pre-sync
  validation, the per-user totals and the settlement payload.
* `src/app/loading.tsx`: the photo-upload effect and the unconditional
  2-second fallback timer.

Numbers are modelled as `Int` (the app works in integer yen; every value a
user can store goes through `parseInt`).  JavaScript `parseInt` is modelled
as an `Option Int` (`none` = `NaN`), and the fallible network calls are
modelled by passing their outcome explicitly.
-/

/-- `interface ReceiptItem` of receipt-details.tsx. -/
structure ReceiptItem where
  english_name : String
  japanese_name : String
  item_order : Int
  cost : Int
  quantity : Int
  discount : Int
deriving Repr, DecidableEq

/-- `interface ReceiptData` of receipt-details.tsx. -/
structure ReceiptData where
  receipt_items : List ReceiptItem
  en_shop_name : String
  jp_shop_name : String
  tax_amount : Int
  total_amount : Int
deriving Repr, DecidableEq

/-- `interface SettleUpGroup`. -/
structure SettleUpGroup where
  name : String
  id : String
deriving Repr, DecidableEq

/-- `interface GroupUser`. -/
structure GroupUser where
  name : String
  id : String
deriving Repr, DecidableEq

/-- The `mockReceiptData` constant of receipt-details.tsx. -/
def mockReceiptData : ReceiptData :=
  { receipt_items :=
      [ ⟨"CRANBERRY", "クランベリー", 1, 605, 1, 0⟩
      , ⟨"(M)ST SHAKE", "MSTシェイク", 2, 847, 1, 0⟩
      , ⟨"CHEESE RISOTTO", "チーズリゾット", 3, 1408, 1, 0⟩
      , ⟨"CAESAR SALAD", "シーザーサラダ", 4, 1045, 1, 0⟩
      , ⟨"T. BACON", "T.ベーコン", 5, 385, 1, 0⟩
      , ⟨"T. AVOCADO", "T.アボカド", 6, 385, 1, 0⟩ ]
  , en_shop_name := "LADOME"
  , jp_shop_name := "ラドーム"
  , tax_amount := 0
  , total_amount := 4675 }

/-- Decimal digit value of a character, `none` for a non-digit. -/
def digitVal (c : Char) : Option Nat :=
  if c.isDigit then some (c.toNat - 48) else none

/-- Model of JavaScript `parseInt(s)` on base-10 input: skip leading spaces,
read an optional sign, then the longest digit prefix; `none` models `NaN`
(no digit found). -/
def parseIntJS (s : String) : Option Int :=
  let cs := s.data.dropWhile (fun c => c = ' ')
  let signAndRest : Int × List Char :=
    match cs with
    | '-' :: rest => (-1, rest)
    | '+' :: rest => (1, rest)
    | _ => (1, cs)
  let ds := signAndRest.2.takeWhile Char.isDigit
  if ds.isEmpty then none
  else some (signAndRest.1 * ((ds.foldl (fun a c => a * 10 + (c.toNat - 48)) 0 : Nat) : Int))

/-- JavaScript `v || 0` applied to a `parseInt` result: `NaN` becomes `0`
(and `0` stays `0`). -/
def orZero : Option Int → Int
  | none => 0
  | some v => v

/-- `Math.max(0, parseInt(s) || 0)`: the value stored by every numeric
text-field handler of receipt-details.tsx. -/
def parsedClamped (s : String) : Int :=
  max 0 (orZero (parseIntJS s))

/-- In-place mutation of `newItems[index]` followed by `setEditableItems`:
replace the item at `i` by `f` of it, leave the list unchanged when `i` is
out of range. -/
def modifyAt (items : List ReceiptItem) (i : Nat) (f : ReceiptItem → ReceiptItem) :
    List ReceiptItem :=
  match items, i with
  | [], _ => []
  | it :: rest, 0 => f it :: rest
  | it :: rest, n + 1 => it :: modifyAt rest n f

/-- `updateItemQuantity` of receipt-details.tsx:
`newItems[index].quantity = Math.max(0, parseInt(quantity) || 0)`. -/
def updateItemQuantity (items : List ReceiptItem) (index : Nat) (quantity : String) :
    List ReceiptItem :=
  modifyAt items index (fun it => { it with quantity := parsedClamped quantity })

/-- `updateItemCost` of receipt-details.tsx:
`newItems[index].cost = Math.max(0, parseInt(cost) || 0)`. -/
def updateItemCost (items : List ReceiptItem) (index : Nat) (cost : String) :
    List ReceiptItem :=
  modifyAt items index (fun it => { it with cost := parsedClamped cost })

/-- `updateTaxAmount` of receipt-details.tsx:
`setEditableTaxAmount(Math.max(0, parseInt(tax) || 0))`. -/
def updateTaxAmount (tax : String) : Int :=
  parsedClamped tax

/-- `calculateSubtotal` of receipt-details.tsx:
`editableItems.reduce((total, item) => total + (item.cost * item.quantity) - item.discount, 0)`. -/
def calculateSubtotal (editableItems : List ReceiptItem) : Int :=
  editableItems.foldl (fun total item => total + (item.cost * item.quantity) - item.discount) 0

/-- `calculateTotal` of receipt-details.tsx:
`calculateSubtotal() + editableTaxAmount`.  This is the value the screen
renders as the displayed total (`¥{total}`). -/
def calculateTotal (editableItems : List ReceiptItem) (editableTaxAmount : Int) : Int :=
  calculateSubtotal editableItems + editableTaxAmount

/-- The `userSelections` object (`{ [itemIndex: number]: string }`) modelled
positionally: entry `i` is the assignment of item `i`, `none` when the key
is absent.  `selAt` is the lookup `userSelections[index]` (JS `undefined`
for a missing key). -/
def selAt (sel : List (Option String)) (i : Nat) : Option String :=
  (sel.get? i).join

/-- JavaScript truthiness of `userSelections[index]`: `undefined` and the
empty string are falsy. -/
def jsTruthy : Option String → Bool
  | none => false
  | some s => s ≠ ""

/-- `[...new Set(xs)]`: deduplication keeping the first occurrence of each
element, in order. -/
def dedupFirst : List String → List String
  | [] => []
  | x :: xs => x :: (dedupFirst xs).filter (fun y => y ≠ x)

/-- The relevant screen state of `ReceiptDetailsScreen` at the moment the
sync button is pressed. -/
structure ScreenState where
  editableItems : List ReceiptItem
  editableTaxAmount : Int
  shop_en : String
  shop_jp : String
  selectedGroupId : String
  paidByUserId : String
  userSelections : List (Option String)
deriving Repr, DecidableEq

/-- The JSON body built by `syncTransaction` for
`POST /api/v1/settle-up/transactions/`. -/
structure SettlementPayload where
  purpose : String
  total_amount : Int
  tax_amount : Int
  paying_member_id : String
  paying_member_total : Int
  other_member_id : String
  other_member_total : Int
  group_id : String
deriving Repr, DecidableEq

/-- Result of one run of `syncTransaction`: either one of the four
validation alerts (no network traffic), or a POST of the payload whose
`ok` flag is the outcome of the single `fetch`. -/
inductive SyncOutcome where
  | errNoGroup
  | errNoPayer
  | errUnassigned
  | errNotTwoUsers
  | posted (payload : SettlementPayload) (ok : Bool)
deriving Repr, DecidableEq

/-- The user-facing `Alert.alert('Error', …)` message of each validation
failure, `none` once validation has passed. -/
def alertMessage : SyncOutcome → Option String
  | .errNoGroup => some "Please select a settle-up group."
  | .errNoPayer => some "Please select who paid for this receipt."
  | .errUnassigned => some "Please assign all receipt items to users."
  | .errNotTwoUsers => some "Items must be assigned to exactly 2 different users."
  | .posted _ _ => none

/-- Whether the run issued the network call. -/
def networkCalled : SyncOutcome → Bool
  | .posted _ _ => true
  | _ => false

/-- The per-user running total of `syncTransaction`
(`userTotals[assignedUserId] += (item.cost * item.quantity) - item.discount`,
guarded by `if (assignedUserId)`), read off for one user id: the `forEach`
over `editableItems` with its index. -/
def userTotalAux (sel : List (Option String)) (uid : String) :
    List ReceiptItem → Nat → Int → Int
  | [], _, acc => acc
  | it :: rest, i, acc =>
      let acc' :=
        match selAt sel i with
        | some u => if u ≠ "" ∧ u = uid then acc + (it.cost * it.quantity - it.discount) else acc
        | none => acc
      userTotalAux sel uid rest (i + 1) acc'

/-- `userTotals[uid]` after the `forEach` of `syncTransaction`. -/
def userTotal (items : List ReceiptItem) (sel : List (Option String)) (uid : String) : Int :=
  userTotalAux sel uid items 0 0

/-- `Object.values(userSelections)` (integer keys enumerate in ascending
order, only present keys appear). -/
def assignedUserIds (sel : List (Option String)) : List String :=
  sel.filterMap id

/-- `syncTransaction` of receipt-details.tsx, with the outcome of the one
`fetch` passed in as `fetchOk`.  The four validation checks run in source
order; only when all pass is the payload built and the POST issued. -/
def syncTransaction (st : ScreenState) (fetchOk : Bool) : SyncOutcome :=
  if st.selectedGroupId = "" then .errNoGroup
  else if st.paidByUserId = "" then .errNoPayer
  else if 0 < (st.editableItems.enum.filter
      (fun p => ! jsTruthy (selAt st.userSelections p.1))).length then .errUnassigned
  else
    let uniqueUserIds := dedupFirst (assignedUserIds st.userSelections)
    if uniqueUserIds.length ≠ 2 then .errNotTwoUsers
    else
      let payingMemberTotal := if st.paidByUserId ∈ uniqueUserIds
        then userTotal st.editableItems st.userSelections st.paidByUserId else 0
      let otherUserId := (uniqueUserIds.find? (fun i => i ≠ st.paidByUserId)).getD ""
      let otherMemberTotal := if otherUserId ∈ uniqueUserIds
        then userTotal st.editableItems st.userSelections otherUserId else 0
      let purpose := if st.shop_en ≠ "" then st.shop_en
        else if st.shop_jp ≠ "" then st.shop_jp else "Receipt"
      .posted
        { purpose := purpose
        , total_amount := calculateTotal st.editableItems st.editableTaxAmount
        , tax_amount := st.editableTaxAmount
        , paying_member_id := st.paidByUserId
        , paying_member_total := payingMemberTotal
        , other_member_id := otherUserId
        , other_member_total := otherMemberTotal
        , group_id := st.selectedGroupId }
        fetchOk

/-- The group / user part of the screen state acted on by
`handleGroupSelection` and `fetchGroupUsers`. -/
structure GroupState where
  selectedGroupId : String
  isDropdownOpen : Bool
  groupUsers : List GroupUser
  userSelections : List (Option String)
  paidByUserId : String
deriving Repr, DecidableEq

/-- Outcome of the `GET /api/v1/settle-up/users/?group_id=…` call. -/
inductive FetchUsersResult where
  | ok (users : List GroupUser)
  | err
deriving Repr, DecidableEq

/-- `fetchGroupUsers` of receipt-details.tsx: early-return on an empty id;
on a 2xx response store the users and clear `userSelections` and
`paidByUserId`; on any error only reset `groupUsers` to `[]` (the
selections and the payer are left untouched). -/
def fetchGroupUsers (st : GroupState) (groupId : String) (res : FetchUsersResult) : GroupState :=
  if groupId = "" then st
  else
    match res with
    | .ok users => { st with groupUsers := users, userSelections := [], paidByUserId := "" }
    | .err => { st with groupUsers := [] }

/-- `handleGroupSelection` of receipt-details.tsx: select the tapped group,
close the dropdown, then run `fetchGroupUsers(group.id)` (whose network
outcome is `res`). -/
def handleGroupSelection (st : GroupState) (group : SettleUpGroup) (res : FetchUsersResult) :
    GroupState :=
  fetchGroupUsers { st with selectedGroupId := group.id, isDropdownOpen := false } group.id res

/-- A navigation performed through `router.replace`. -/
inductive NavAction where
  | replaceReceiptDetails (data : Option String)
  | replaceHome
deriving Repr, DecidableEq

/-- The externally visible effects of one `uploadPhoto` run in
loading.tsx: the navigation done inside the `try`/`catch`, and the timer
scheduled unconditionally after it. -/
structure UploadEffects where
  immediate : NavAction
  timerDelayMs : Nat
  timerAction : NavAction
deriving Repr, DecidableEq

/-- `uploadPhoto` of loading.tsx, with the upload outcome passed in:
`some body` is a 2xx response whose JSON serializes back to `body`, `none`
is any thrown error / non-ok status.  Success navigates to
`/receipt-details` with the data; failure navigates back to `/`; in both
cases the trailing `setTimeout` then schedules a 2000 ms navigation to
`/receipt-details` with no `data` parameter. -/
def uploadPhoto (outcome : Option String) : UploadEffects :=
  { immediate :=
      match outcome with
      | some body => .replaceReceiptDetails (some body)
      | none => .replaceHome
  , timerDelayMs := 2000
  , timerAction := .replaceReceiptDetails none }

/-- The `receiptData` resolution at the top of `ReceiptDetailsScreen`:
`params.data ? JSON.parse(params.data) : mockReceiptData`, with a parse
failure caught and replaced by `mockReceiptData`.  `parseJson` is the
JSON-parse oracle (`none` = `JSON.parse` throws); a missing or empty
(falsy) `data` parameter selects the mock data directly. -/
def resolveReceiptData (parseJson : String → Option ReceiptData) (data : Option String) :
    ReceiptData :=
  match data with
  | none => mockReceiptData
  | some s =>
      if s = "" then mockReceiptData
      else
        match parseJson s with
        | some d => d
        | none => mockReceiptData

/-- The receipt data the details screen will work from after a given
navigation: screens reached via `/receipt-details` resolve their `data`
parameter with `resolveReceiptData`; navigating home renders no receipt. -/
def navReceiptData (parseJson : String → Option ReceiptData) : NavAction → Option ReceiptData
  | .replaceReceiptDetails d => some (resolveReceiptData parseJson d)
  | .replaceHome => none

/-- Trace of the network phase of `syncTransaction` (everything from the
first `fetch` on): how many POST attempts were made, which waits (in ms)
were inserted between attempts, and whether the phase ended in success. -/
structure NetTrace where
  attempts : Nat
  waitsMs : List Nat
  succeeded : Bool
deriving Repr, DecidableEq

/-- The network phase of `syncTransaction` in receipt-details.tsx, run
against a stream of attempt outcomes (`outcomes n` = would the `n`-th POST
attempt get a 2xx response).  The source performs exactly one `fetch` with
no `setTimeout` around it: one attempt, no waits, success iff the first
outcome is ok. -/
def syncNetPhase (outcomes : Nat → Bool) : NetTrace :=
  { attempts := 1, waitsMs := [], succeeded := outcomes 0 }

/-- Modelled from the spec (§4.2, claim C1): the backoff delay before the
attempt after the `attempt`-th failure, `min(1000 * 2^(attempt-1), 5000)`. -/
def retryDelay (attempt : Nat) : Nat :=
  min (1000 * 2 ^ (attempt - 1)) 5000

/-- Modelled from the spec (§4.2, claim C1): the loop of the generic
retry-with-backoff wrapper, with `fuel` remaining attempts, `att` attempts
already made and `ws` the reversed list of waits so far. -/
def retryGo (outcomes : Nat → Bool) : Nat → Nat → List Nat → NetTrace
  | 0, att, ws => { attempts := att, waitsMs := ws.reverse, succeeded := false }
  | fuel + 1, att, ws =>
      if outcomes att then { attempts := att + 1, waitsMs := ws.reverse, succeeded := true }
      else if fuel = 0 then { attempts := att + 1, waitsMs := ws.reverse, succeeded := false }
      else retryGo outcomes fuel (att + 1) (retryDelay (att + 1) :: ws)

/-- Modelled from the spec (§4.2, claim C1): the generic retry wrapper the
spec describes — up to `maxAttempts` attempts, waiting `retryDelay`
between failures, surfacing the final result.  No such wrapper exists in
the sources; this definition only states what the claim asserts the POST
goes through. -/
def retryWithBackoff (maxAttempts : Nat) (outcomes : Nat → Bool) : NetTrace :=
  retryGo outcomes maxAttempts 0 []

/-- One user edit on the receipt screen: a quantity, cost or tax text-field
change (the only handlers that write these fields). -/
inductive Edit where
  | quantity (i : Nat) (s : String)
  | cost (i : Nat) (s : String)
  | tax (s : String)
deriving Repr, DecidableEq

/-- Apply one edit to the pair (editableItems, editableTaxAmount). -/
def applyEdit : List ReceiptItem × Int → Edit → List ReceiptItem × Int
  | (items, tax), .quantity i s => (updateItemQuantity items i s, tax)
  | (items, tax), .cost i s => (updateItemCost items i s, tax)
  | (items, _), .tax s => (items, updateTaxAmount s)

/-- The screen state reached from an initial receipt by a sequence of user
edits. -/
def applyEdits (init : List ReceiptItem × Int) (edits : List Edit) : List ReceiptItem × Int :=
  edits.foldl applyEdit init

/-- Stated from the claims (C2): the subtotal as the claim words it, the
sum over items of `cost * quantity`. -/
def claimedSubtotal (items : List ReceiptItem) : Int :=
  (items.map (fun it => it.cost * it.quantity)).sum

/-- The subtotal the code actually computes, written as a plain sum: the
sum over items of `cost * quantity - discount`. -/
def amendedSubtotal (items : List ReceiptItem) : Int :=
  (items.map (fun it => it.cost * it.quantity - it.discount)).sum

/-- Stated from the claims (C3): the per-user total as the claim words it —
the sum of `cost * quantity` over exactly the items assigned to `uid`,
items being enumerated from index `start`. -/
def claimedUserTotalFrom (sel : List (Option String)) (uid : String) :
    List ReceiptItem → Nat → Int
  | [], _ => 0
  | it :: rest, i =>
      (if selAt sel i = some uid then it.cost * it.quantity else 0) +
        claimedUserTotalFrom sel uid rest (i + 1)

/-- The per-user total the code actually computes, written as a plain sum:
`cost * quantity - discount` over exactly the items assigned to `uid`. -/
def amendedUserTotalFrom (sel : List (Option String)) (uid : String) :
    List ReceiptItem → Nat → Int
  | [], _ => 0
  | it :: rest, i =>
      (if selAt sel i = some uid then it.cost * it.quantity - it.discount else 0) +
        amendedUserTotalFrom sel uid rest (i + 1)

/-- The items-invariant preserved by every edit: non-negative cost and
quantity and a zero discount. -/
def ItemOK (it : ReceiptItem) : Prop :=
  0 ≤ it.cost ∧ 0 ≤ it.quantity ∧ it.discount = 0

instance (it : ReceiptItem) : Decidable (ItemOK it) := by
  unfold ItemOK; infer_instance

theorem parsedClamped_nonneg (s : String) : 0 ≤ parsedClamped s :=
  le_max_left 0 _

theorem parsedClamped_of_parse_none (s : String) (h : parseIntJS s = none) :
    parsedClamped s = 0 := by
  simp [parsedClamped, orZero, h]

theorem parseIntJS_empty : parseIntJS "" = none := by decide

theorem foldl_subtotal_eq (l : List ReceiptItem) (acc : Int) :
    l.foldl (fun total item => total + (item.cost * item.quantity) - item.discount) acc
      = acc + amendedSubtotal l := by
  induction l generalizing acc with
  | nil => simp [amendedSubtotal]
  | cons it rest ih =>
      simp only [List.foldl_cons, ih, amendedSubtotal, List.map_cons, List.sum_cons]
      ring

theorem calculateSubtotal_eq_amended (l : List ReceiptItem) :
    calculateSubtotal l = amendedSubtotal l := by
  simpa [calculateSubtotal] using foldl_subtotal_eq l 0

theorem amendedSubtotal_perm {l₁ l₂ : List ReceiptItem} (h : l₁.Perm l₂) :
    amendedSubtotal l₁ = amendedSubtotal l₂ := by
  unfold amendedSubtotal
  exact (h.map (fun it : ReceiptItem => it.cost * it.quantity - it.discount)).sum_eq

theorem modifyAt_getElem? (l : List ReceiptItem) (i : Nat) (f : ReceiptItem → ReceiptItem) :
    (modifyAt l i f)[i]? = l[i]?.map f := by
  induction l generalizing i with
  | nil => simp [modifyAt]
  | cons it rest ih =>
      cases i with
      | zero => simp [modifyAt]
      | succ n => simpa [modifyAt] using ih n

theorem modifyAt_forall {P : ReceiptItem → Prop} (l : List ReceiptItem) (i : Nat)
    (f : ReceiptItem → ReceiptItem) (hl : ∀ it ∈ l, P it) (hf : ∀ it, P it → P (f it)) :
    ∀ it ∈ modifyAt l i f, P it := by
  induction l generalizing i with
  | nil => simp [modifyAt]
  | cons hd rest ih =>
      cases i with
      | zero =>
          intro it hit
          simp only [modifyAt, List.mem_cons] at hit
          rcases hit with rfl | hit
          · exact hf hd (hl hd (List.mem_cons_self hd rest))
          · exact hl it (List.mem_cons_of_mem hd hit)
      | succ n =>
          intro it hit
          simp only [modifyAt, List.mem_cons] at hit
          rcases hit with rfl | hit
          · exact hl it (List.mem_cons_self it rest)
          · exact ih n (fun x hx => hl x (List.mem_cons_of_mem hd hx)) it hit

theorem applyEdit_preserves (st : List ReceiptItem × Int) (e : Edit)
    (h : ∀ it ∈ st.1, ItemOK it) : ∀ it ∈ (applyEdit st e).1, ItemOK it := by
  rcases st with ⟨items, tax⟩
  cases e with
  | quantity i s =>
      refine modifyAt_forall items i _ h (fun it hit => ?_)
      exact ⟨hit.1, parsedClamped_nonneg s, hit.2.2⟩
  | cost i s =>
      refine modifyAt_forall items i _ h (fun it hit => ?_)
      exact ⟨parsedClamped_nonneg s, hit.2.1, hit.2.2⟩
  | tax s => exact h

theorem applyEdits_preserves (init : List ReceiptItem × Int) (edits : List Edit)
    (h : ∀ it ∈ init.1, ItemOK it) : ∀ it ∈ (applyEdits init edits).1, ItemOK it := by
  induction edits generalizing init with
  | nil => exact h
  | cons e rest ih =>
      exact ih (applyEdit init e) (applyEdit_preserves init e h)

theorem amendedSubtotal_nonneg (l : List ReceiptItem) (h : ∀ it ∈ l, ItemOK it) :
    0 ≤ amendedSubtotal l := by
  induction l with
  | nil => simp [amendedSubtotal]
  | cons it rest ih =>
      have hit := h it (List.mem_cons_self it rest)
      have hrest : 0 ≤ amendedSubtotal rest :=
        ih (fun x hx => h x (List.mem_cons_of_mem it hx))
      have hterm : 0 ≤ it.cost * it.quantity - it.discount := by
        have hmul := mul_nonneg hit.1 hit.2.1
        have hd := hit.2.2
        omega
      have hcons : amendedSubtotal (it :: rest)
          = (it.cost * it.quantity - it.discount) + amendedSubtotal rest := by
        simp [amendedSubtotal]
      rw [hcons]
      omega

theorem userTotalAux_eq_amended (sel : List (Option String)) (uid : String) (huid : uid ≠ "")
    (items : List ReceiptItem) (i : Nat) (acc : Int) :
    userTotalAux sel uid items i acc = acc + amendedUserTotalFrom sel uid items i := by
  induction items generalizing i acc with
  | nil => simp [userTotalAux, amendedUserTotalFrom]
  | cons it rest ih =>
      have hstep : userTotalAux sel uid (it :: rest) i acc
          = userTotalAux sel uid rest (i + 1)
            (match selAt sel i with
             | some u =>
                 if u ≠ "" ∧ u = uid then acc + (it.cost * it.quantity - it.discount) else acc
             | none => acc) := rfl
      have hamend : amendedUserTotalFrom sel uid (it :: rest) i
          = (if selAt sel i = some uid then it.cost * it.quantity - it.discount else 0)
            + amendedUserTotalFrom sel uid rest (i + 1) := rfl
      rw [hstep, ih, hamend]
      cases hsel : selAt sel i with
      | none => simp
      | some u =>
          by_cases hu : u = uid
          · subst hu
            simp only [ne_eq, huid, not_false_iff, and_self, if_true, true_and,
              Option.some.injEq, if_pos rfl]
            ring
          · simp only [hu, and_false, if_false, Option.some.injEq]
            simp [hu]

theorem amendedSubtotal_updateCost (items : List ReceiptItem) (i : Nat) (s : String)
    (h : i < items.length) :
    amendedSubtotal (updateItemCost items i s)
      = amendedSubtotal items
        + (items.get ⟨i, h⟩).quantity * (parsedClamped s - (items.get ⟨i, h⟩).cost) := by
  induction items generalizing i with
  | nil => simp at h
  | cons it rest ih =>
      cases i with
      | zero =>
          have hc : updateItemCost (it :: rest) 0 s
              = { it with cost := parsedClamped s } :: rest := rfl
          have h1 : amendedSubtotal ({ it with cost := parsedClamped s } :: rest)
              = parsedClamped s * it.quantity - it.discount + amendedSubtotal rest := by
            simp [amendedSubtotal]
          have h2 : amendedSubtotal (it :: rest)
              = it.cost * it.quantity - it.discount + amendedSubtotal rest := by
            simp [amendedSubtotal]
          have hg : (it :: rest).get ⟨0, h⟩ = it := rfl
          rw [hc, h1, h2, hg]
          ring
      | succ n =>
          have hn : n < rest.length := Nat.lt_of_succ_lt_succ h
          have hc : updateItemCost (it :: rest) (n + 1) s = it :: updateItemCost rest n s := rfl
          have h1 : amendedSubtotal (it :: updateItemCost rest n s)
              = it.cost * it.quantity - it.discount
                + amendedSubtotal (updateItemCost rest n s) := by
            simp [amendedSubtotal]
          have h2 : amendedSubtotal (it :: rest)
              = it.cost * it.quantity - it.discount + amendedSubtotal rest := by
            simp [amendedSubtotal]
          have hg : (it :: rest).get ⟨n + 1, h⟩ = rest.get ⟨n, hn⟩ := rfl
          rw [hc, h1, h2, hg, ih n hn]
          ring

theorem unassigned_filter_pos (items : List ReceiptItem) (sel : List (Option String))
    (i : Nat) (hi : i < items.length) (hun : jsTruthy (selAt sel i) = false) :
    0 < (items.enum.filter (fun p => ! jsTruthy (selAt sel p.1))).length := by
  have hmem : (i, items[i]) ∈ items.enum := by
    rw [List.mk_mem_enum_iff_getElem?]
    exact List.getElem?_eq_getElem hi
  have hfil : (i, items[i]) ∈ items.enum.filter (fun p => ! jsTruthy (selAt sel p.1)) :=
    List.mem_filter.2 ⟨hmem, by simpa using hun⟩
  exact List.length_pos.2 (List.ne_nil_of_mem hfil)

/-- C1: the claim asserts the settlement-payload POST goes through a
3-attempt exponential-backoff retry wrapper, so an operation that fails
twice and then succeeds would resolve after exactly 3 attempts.  False for
the code: `syncTransaction` issues a single `fetch` with no retry — on the
fails-twice-then-succeeds outcome stream its network phase makes 1 attempt,
inserts no waits, and fails, while the claimed wrapper would make 3
attempts with waits 1000 and 2000 ms and succeed. -/
theorem C1_counterexample :
    syncNetPhase (fun n => n ≥ 2) ≠ retryWithBackoff 3 (fun n => n ≥ 2) ∧
    syncNetPhase (fun n => n ≥ 2) = { attempts := 1, waitsMs := [], succeeded := false } ∧
    retryWithBackoff 3 (fun n => n ≥ 2)
      = { attempts := 3, waitsMs := [1000, 2000], succeeded := true } := by
  decide

/-- C1 (amended): the settlement-payload POST is performed directly, not
through any retry wrapper: for every outcome stream, the network phase of
`syncTransaction` makes exactly one attempt, inserts no backoff waits, and
succeeds iff that single attempt succeeds — i.e. it coincides with the
spec's retry wrapper degenerated to a maximum of one attempt. -/
theorem C1_thm (outcomes : Nat → Bool) :
    syncNetPhase outcomes = retryWithBackoff 1 outcomes ∧
    (syncNetPhase outcomes).attempts = 1 ∧
    (syncNetPhase outcomes).waitsMs = [] ∧
    (syncNetPhase outcomes).succeeded = outcomes 0 := by
  refine ⟨?_, rfl, rfl, rfl⟩
  unfold syncNetPhase retryWithBackoff retryGo
  cases houtcome : outcomes 0 <;> simp [houtcome]

/-- C2: the claim states that the computed subtotal is the sum over items
of `cost * quantity`.  False: `calculateSubtotal` also subtracts each
item's `discount` — on a single item with cost 2, quantity 1, discount 1
the code computes 1 while the claim demands 2. -/
theorem C2_counterexample :
    calculateSubtotal [⟨"X", "", 1, 2, 1, 1⟩] ≠ claimedSubtotal [⟨"X", "", 1, 2, 1, 1⟩] ∧
    calculateSubtotal [⟨"X", "", 1, 2, 1, 1⟩] = 1 ∧
    claimedSubtotal [⟨"X", "", 1, 2, 1, 1⟩] = 2 := by
  decide

/-- C2 (amended): for every list of receipt items the computed subtotal
equals the sum over the items of `cost * quantity - discount`, and this
value is independent of the order of the items. -/
theorem C2_thm :
    (∀ items : List ReceiptItem, calculateSubtotal items = amendedSubtotal items) ∧
    (∀ l₁ l₂ : List ReceiptItem, l₁.Perm l₂ → calculateSubtotal l₁ = calculateSubtotal l₂) := by
  constructor
  · exact calculateSubtotal_eq_amended
  · intro l₁ l₂ h
    rw [calculateSubtotal_eq_amended, calculateSubtotal_eq_amended]
    exact amendedSubtotal_perm h

/-- C2 witness: the amended theorem applied to a concrete two-item swap. -/
theorem C2_witness :
    calculateSubtotal [⟨"A", "", 1, 2, 3, 0⟩, ⟨"B", "", 2, 5, 1, 4⟩]
      = calculateSubtotal [⟨"B", "", 2, 5, 1, 4⟩, ⟨"A", "", 1, 2, 3, 0⟩] :=
  C2_thm.2 _ _ (by decide)

/-- C3: the claim states each user's sync-time total is the sum of
`cost * quantity` over the items assigned to that user.  False: the code
adds `cost * quantity - discount` — one item of cost 3, quantity 1,
discount 1 assigned to user `a` yields 2, not 3. -/
theorem C3_counterexample :
    userTotal [⟨"X", "", 1, 3, 1, 1⟩] [some "a"] "a"
        ≠ claimedUserTotalFrom [some "a"] "a" [⟨"X", "", 1, 3, 1, 1⟩] 0 ∧
    userTotal [⟨"X", "", 1, 3, 1, 1⟩] [some "a"] "a" = 2 ∧
    claimedUserTotalFrom [some "a"] "a" [⟨"X", "", 1, 3, 1, 1⟩] 0 = 3 := by
  decide

/-- C3 (amended): for every item list, every assignment map and every
concrete (non-empty) user id, the per-user total computed at sync time
equals the sum of `cost * quantity - discount` over exactly the items
assigned to that user. -/
theorem C3_thm (items : List ReceiptItem) (sel : List (Option String)) (uid : String)
    (huid : uid ≠ "") :
    userTotal items sel uid = amendedUserTotalFrom sel uid items 0 := by
  simpa [userTotal] using userTotalAux_eq_amended sel uid huid items 0 0

/-- C3 witness: the amended theorem at a concrete two-user fixture. -/
theorem C3_witness :
    userTotal [⟨"X", "", 1, 100, 1, 0⟩, ⟨"Y", "", 2, 200, 2, 0⟩, ⟨"Z", "", 3, 50, 1, 0⟩]
        [some "a", some "b", some "a"] "a"
      = amendedUserTotalFrom [some "a", some "b", some "a"] "a"
          [⟨"X", "", 1, 100, 1, 0⟩, ⟨"Y", "", 2, 200, 2, 0⟩, ⟨"Z", "", 3, 50, 1, 0⟩] 0 :=
  C3_thm _ _ "a" (by decide)

/-- C4: in every screen state with no group selected, or no payer selected,
or at least one item without a user assignment, `syncTransaction` issues no
network call and returns after showing an error alert; the disjunctive
hypothesis makes each of the three conditions block independently of the
other two. -/
theorem C4_thm (st : ScreenState) (fetchOk : Bool)
    (h : st.selectedGroupId = "" ∨ st.paidByUserId = "" ∨
      ∃ i, i < st.editableItems.length ∧ jsTruthy (selAt st.userSelections i) = false) :
    networkCalled (syncTransaction st fetchOk) = false ∧
    (alertMessage (syncTransaction st fetchOk)).isSome = true := by
  unfold syncTransaction
  by_cases hg : st.selectedGroupId = ""
  · simp [hg, networkCalled, alertMessage]
  · by_cases hp : st.paidByUserId = ""
    · simp [hg, hp, networkCalled, alertMessage]
    · have hex : ∃ i, i < st.editableItems.length
          ∧ jsTruthy (selAt st.userSelections i) = false := by
        rcases h with h | h | h
        · exact absurd h hg
        · exact absurd h hp
        · exact h
      rcases hex with ⟨i, hi, hun⟩
      have hpos := unassigned_filter_pos st.editableItems st.userSelections i hi hun
      simp [hg, hp, hpos, networkCalled, alertMessage]

/-- C4 witness: a state with items and a payer but no selected group is
blocked with an error and no network call. -/
theorem C4_witness :
    networkCalled (syncTransaction
      ⟨[⟨"X", "", 1, 100, 1, 0⟩], 0, "S", "", "", "a", [some "a"]⟩ true) = false ∧
    (alertMessage (syncTransaction
      ⟨[⟨"X", "", 1, 100, 1, 0⟩], 0, "S", "", "", "a", [some "a"]⟩ true)).isSome = true :=
  C4_thm _ true (Or.inl rfl)

/-- C5: the claim says the fourth pre-sync check is "at least one real
assignment or shared item exists" and that the sync proceeds whenever the
first three checks pass and such an assignment exists.  False: in a state
with a group, a payer, and every item assigned to the single user `a`, the
first three checks pass and a real assignment exists, yet the code blocks
with the distinct fourth alert "Items must be assigned to exactly 2
different users." and issues no network call. -/
theorem C5_counterexample :
    syncTransaction ⟨[⟨"X", "", 1, 100, 1, 0⟩], 0, "S", "", "g", "a", [some "a"]⟩ true
        = SyncOutcome.errNotTwoUsers ∧
    networkCalled
        (syncTransaction ⟨[⟨"X", "", 1, 100, 1, 0⟩], 0, "S", "", "g", "a", [some "a"]⟩ true)
      = false := by
  decide

/-- C5 (amended): the pre-sync validation checks exactly four conditions,
fail-fast and in this order, each with a distinct user-facing message:
group selected, payer selected, all items assigned, and items assigned to
exactly 2 distinct users; whenever the first three checks pass and the
assigned user ids number exactly 2, the sync proceeds to the network
call. -/
theorem C5_thm (st : ScreenState) (fetchOk : Bool) :
    (st.selectedGroupId = "" → syncTransaction st fetchOk = SyncOutcome.errNoGroup) ∧
    (st.selectedGroupId ≠ "" → st.paidByUserId = "" →
      syncTransaction st fetchOk = SyncOutcome.errNoPayer) ∧
    (st.selectedGroupId ≠ "" → st.paidByUserId ≠ "" →
      0 < (st.editableItems.enum.filter
        (fun p => ! jsTruthy (selAt st.userSelections p.1))).length →
      syncTransaction st fetchOk = SyncOutcome.errUnassigned) ∧
    (st.selectedGroupId ≠ "" → st.paidByUserId ≠ "" →
      (st.editableItems.enum.filter
        (fun p => ! jsTruthy (selAt st.userSelections p.1))).length = 0 →
      (dedupFirst (assignedUserIds st.userSelections)).length ≠ 2 →
      syncTransaction st fetchOk = SyncOutcome.errNotTwoUsers) ∧
    (st.selectedGroupId ≠ "" → st.paidByUserId ≠ "" →
      (st.editableItems.enum.filter
        (fun p => ! jsTruthy (selAt st.userSelections p.1))).length = 0 →
      (dedupFirst (assignedUserIds st.userSelections)).length = 2 →
      networkCalled (syncTransaction st fetchOk) = true) ∧
    (alertMessage SyncOutcome.errNoGroup ≠ alertMessage SyncOutcome.errNoPayer ∧
     alertMessage SyncOutcome.errNoGroup ≠ alertMessage SyncOutcome.errUnassigned ∧
     alertMessage SyncOutcome.errNoGroup ≠ alertMessage SyncOutcome.errNotTwoUsers ∧
     alertMessage SyncOutcome.errNoPayer ≠ alertMessage SyncOutcome.errUnassigned ∧
     alertMessage SyncOutcome.errNoPayer ≠ alertMessage SyncOutcome.errNotTwoUsers ∧
     alertMessage SyncOutcome.errUnassigned ≠ alertMessage SyncOutcome.errNotTwoUsers) := by
  refine ⟨?_, ?_, ?_, ?_, ?_, by decide⟩
  · intro hg
    simp [syncTransaction, hg]
  · intro hg hp
    simp [syncTransaction, hg, hp]
  · intro hg hp hun
    simp [syncTransaction, hg, hp, hun]
  · intro hg hp hun h2
    simp [syncTransaction, hg, hp, hun, h2]
  · intro hg hp hun h2
    simp [syncTransaction, networkCalled, hg, hp, hun, h2]

/-- C5 witness: in a valid two-user state the amended theorem yields the
network call. -/
theorem C5_witness :
    networkCalled (syncTransaction
      ⟨[⟨"X", "", 1, 100, 1, 0⟩, ⟨"Y", "", 2, 50, 1, 0⟩], 0, "S", "", "g", "a",
        [some "a", some "b"]⟩ true) = true :=
  (C5_thm ⟨[⟨"X", "", 1, 100, 1, 0⟩, ⟨"Y", "", 2, 50, 1, 0⟩], 0, "S", "", "g", "a",
      [some "a", some "b"]⟩ true).2.2.2.2.1
    (by decide) (by decide) (by decide) (by decide)

/-- C6: the claim says the displayed total is taken verbatim from the
upload response's `total_amount` and never changes under local edits.
False: `calculateTotal` recomputes it as the local subtotal plus the
editable tax — after editing the first mock item's cost to 100 the
displayed total differs both from its previous value and from the
response's `total_amount` (which the initial display only happened to
equal). -/
theorem C6_counterexample :
    calculateTotal (updateItemCost mockReceiptData.receipt_items 0 "100") 0
        ≠ calculateTotal mockReceiptData.receipt_items 0 ∧
    calculateTotal (updateItemCost mockReceiptData.receipt_items 0 "100") 0
        ≠ mockReceiptData.total_amount ∧
    calculateTotal mockReceiptData.receipt_items 0 = mockReceiptData.total_amount := by
  decide

/-- C6 (amended): the displayed total is recomputed locally on every
render as subtotal plus editable tax: editing the tax field displays
`calculateSubtotal + parsedClamped t`, and editing item `i`'s cost shifts
the displayed total by `quantity_i * (newCost - oldCost)` — local edits do
change the displayed total, and the upload response's `total_amount` plays
no part in it. -/
theorem C6_thm (items : List ReceiptItem) (tax : Int) (i : Nat) (s t : String)
    (h : i < items.length) :
    calculateTotal items (updateTaxAmount t) = calculateSubtotal items + parsedClamped t ∧
    calculateTotal (updateItemCost items i s) tax
      = calculateTotal items tax
        + (items.get ⟨i, h⟩).quantity * (parsedClamped s - (items.get ⟨i, h⟩).cost) := by
  constructor
  · rfl
  · unfold calculateTotal
    rw [calculateSubtotal_eq_amended, calculateSubtotal_eq_amended,
      amendedSubtotal_updateCost items i s h]
    ring

/-- C6 witness: the cost-edit shift formula at the first mock item. -/
theorem C6_witness :
    calculateTotal (updateItemCost mockReceiptData.receipt_items 0 "100") 5
      = calculateTotal mockReceiptData.receipt_items 5
        + (mockReceiptData.receipt_items.get ⟨0, by decide⟩).quantity
          * (parsedClamped "100" - (mockReceiptData.receipt_items.get ⟨0, by decide⟩).cost) :=
  (C6_thm mockReceiptData.receipt_items 5 0 "100" "7" (by decide)).2

/-- C7: the claim says the subtotal of every reachable state is
non-negative.  False: a receipt parsed from the upload response may carry a
positive `discount` (or negative initial costs) which no edit handler
clamps — a single item with cost 0, quantity 0, discount 5 reaches the
screen unedited and has subtotal -5. -/
theorem C7_counterexample :
    calculateSubtotal (applyEdits ([⟨"X", "", 1, 0, 0, 5⟩], 0) []).1 < 0 := by
  decide

/-- C7 (amended): for every initial receipt whose items all have
non-negative cost, non-negative quantity and zero discount, and every
sequence of user edits, the computed subtotal stays non-negative — the
quantity and cost edit handlers clamp their stored value to ≥ 0 and no
edit touches the discount. -/
theorem C7_thm (init : List ReceiptItem) (tax0 : Int) (edits : List Edit)
    (h : ∀ it ∈ init, ItemOK it) :
    0 ≤ calculateSubtotal (applyEdits (init, tax0) edits).1 := by
  rw [calculateSubtotal_eq_amended]
  exact amendedSubtotal_nonneg _ (applyEdits_preserves (init, tax0) edits h)

/-- C7 witness: the mock receipt after a non-numeric cost edit and a
negative quantity edit still has a non-negative subtotal. -/
theorem C7_witness :
    0 ≤ calculateSubtotal
        (applyEdits (mockReceiptData.receipt_items, 0)
          [Edit.cost 0 "abc", Edit.quantity 1 "-3"]).1 :=
  C7_thm mockReceiptData.receipt_items 0 [Edit.cost 0 "abc", Edit.quantity 1 "-3"]
    (by decide)

/-- C8: for every text input to the quantity, cost or tax update handlers,
an empty or non-numeric (`parseInt` = NaN) string stores 0, the update is
total (never throws), and the stored value is never negative — negative
parses are clamped to 0. -/
theorem C8_thm (s : String) (items : List ReceiptItem) (i : Nat) (itq itc : ReceiptItem)
    (hq : (updateItemQuantity items i s)[i]? = some itq)
    (hc : (updateItemCost items i s)[i]? = some itc) :
    ((s = "" ∨ parseIntJS s = none) →
      itq.quantity = 0 ∧ itc.cost = 0 ∧ updateTaxAmount s = 0) ∧
    0 ≤ itq.quantity ∧ 0 ≤ itc.cost ∧ 0 ≤ updateTaxAmount s := by
  rw [updateItemQuantity, modifyAt_getElem?] at hq
  rw [updateItemCost, modifyAt_getElem?] at hc
  cases hit : items[i]? with
  | none =>
      rw [hit] at hq
      simp at hq
  | some it0 =>
      rw [hit] at hq hc
      simp only [Option.map_some', Option.some.injEq] at hq hc
      subst hq
      subst hc
      refine ⟨fun hbad => ?_, parsedClamped_nonneg s, parsedClamped_nonneg s,
        parsedClamped_nonneg s⟩
      have hz : parsedClamped s = 0 := by
        rcases hbad with rfl | hnan
        · exact parsedClamped_of_parse_none _ parseIntJS_empty
        · exact parsedClamped_of_parse_none _ hnan
      exact ⟨hz, hz, hz⟩

/-- C8 witness: the non-numeric input "xy" stores 0 in the first mock
item's quantity and cost and in the tax field. -/
theorem C8_witness :
    (⟨"CRANBERRY", "クランベリー", 1, 605, 0, 0⟩ : ReceiptItem).quantity = 0 ∧
    (⟨"CRANBERRY", "クランベリー", 1, 0, 1, 0⟩ : ReceiptItem).cost = 0 ∧
    updateTaxAmount "xy" = 0 :=
  (C8_thm "xy" mockReceiptData.receipt_items 0 _ _ (by decide) (by decide)).1
    (Or.inr (by decide))

/-- C9: the claim says every group change clears all item assignments and
the payer selection.  False: the clearing lives inside `fetchGroupUsers`'s
success branch — when the users fetch for the newly selected group fails,
the previous assignments and payer survive the group change. -/
theorem C9_counterexample :
    (handleGroupSelection ⟨"g1", false, [⟨"A", "u1"⟩], [some "u1"], "u1"⟩
        ⟨"G2", "g2"⟩ FetchUsersResult.err).selectedGroupId = "g2" ∧
    (handleGroupSelection ⟨"g1", false, [⟨"A", "u1"⟩], [some "u1"], "u1"⟩
        ⟨"G2", "g2"⟩ FetchUsersResult.err).userSelections = [some "u1"] ∧
    (handleGroupSelection ⟨"g1", false, [⟨"A", "u1"⟩], [some "u1"], "u1"⟩
        ⟨"G2", "g2"⟩ FetchUsersResult.err).paidByUserId = "u1" := by
  decide

/-- C9 (amended): a group change clears all previous item assignments and
the payer selection exactly when the users fetch for the new (non-empty)
group id succeeds; when that fetch fails, only the user list is reset and
the previous assignments and payer persist. -/
theorem C9_thm (st : GroupState) (group : SettleUpGroup) (users : List GroupUser)
    (h : group.id ≠ "") :
    (handleGroupSelection st group (.ok users)).userSelections = [] ∧
    (handleGroupSelection st group (.ok users)).paidByUserId = "" ∧
    (handleGroupSelection st group (.ok users)).groupUsers = users ∧
    (handleGroupSelection st group (.ok users)).selectedGroupId = group.id ∧
    (handleGroupSelection st group .err).userSelections = st.userSelections ∧
    (handleGroupSelection st group .err).paidByUserId = st.paidByUserId ∧
    (handleGroupSelection st group .err).groupUsers = [] := by
  simp [handleGroupSelection, fetchGroupUsers, h]

/-- C9 witness: a successful users fetch after a concrete group change
clears the assignment map and the payer. -/
theorem C9_witness :
    (handleGroupSelection ⟨"g1", false, [⟨"A", "u1"⟩], [some "u1"], "u1"⟩
        ⟨"G2", "g2"⟩ (.ok [⟨"B", "u2"⟩])).userSelections = [] ∧
    (handleGroupSelection ⟨"g1", false, [⟨"A", "u1"⟩], [some "u1"], "u1"⟩
        ⟨"G2", "g2"⟩ (.ok [⟨"B", "u2"⟩])).paidByUserId = "" ∧
    (handleGroupSelection ⟨"g1", false, [⟨"A", "u1"⟩], [some "u1"], "u1"⟩
        ⟨"G2", "g2"⟩ (.ok [⟨"B", "u2"⟩])).groupUsers = [⟨"B", "u2"⟩] ∧
    (handleGroupSelection ⟨"g1", false, [⟨"A", "u1"⟩], [some "u1"], "u1"⟩
        ⟨"G2", "g2"⟩ (.ok [⟨"B", "u2"⟩])).selectedGroupId = "g2" ∧
    (handleGroupSelection ⟨"g1", false, [⟨"A", "u1"⟩], [some "u1"], "u1"⟩
        ⟨"G2", "g2"⟩ FetchUsersResult.err).userSelections = [some "u1"] ∧
    (handleGroupSelection ⟨"g1", false, [⟨"A", "u1"⟩], [some "u1"], "u1"⟩
        ⟨"G2", "g2"⟩ FetchUsersResult.err).paidByUserId = "u1" ∧
    (handleGroupSelection ⟨"g1", false, [⟨"A", "u1"⟩], [some "u1"], "u1"⟩
        ⟨"G2", "g2"⟩ FetchUsersResult.err).groupUsers = [] :=
  C9_thm ⟨"g1", false, [⟨"A", "u1"⟩], [some "u1"], "u1"⟩ ⟨"G2", "g2"⟩ [⟨"B", "u2"⟩]
    (by decide)

/-- C10: every `uploadPhoto` run — success (which first navigates to
receipt-details with the response body) or failure (which first navigates
back to the camera screen) — also schedules a 2000 ms timer that navigates
to receipt-details with no `data` parameter, and the details screen
resolves a missing `data` parameter to the built-in `mockReceiptData`
sample dataset. -/
theorem C10_thm (outcome : Option String) (parseJson : String → Option ReceiptData) :
    (uploadPhoto outcome).timerDelayMs = 2000 ∧
    (uploadPhoto outcome).timerAction = NavAction.replaceReceiptDetails none ∧
    navReceiptData parseJson (uploadPhoto outcome).timerAction = some mockReceiptData ∧
    (uploadPhoto outcome).immediate
      = (match outcome with
        | some body => NavAction.replaceReceiptDetails (some body)
        | none => NavAction.replaceHome) := by
  exact ⟨rfl, rfl, rfl, rfl⟩
